import Mathlib

/-!
Verification development for the floatchat query-interpretation and
synthetic-response engine (`chatService` / `generateMockResponse` and the
mock data generators in the frontend chat service module).

Numbers that are IEEE doubles in the source are embedded as exact
rationals (every literal in the source is a short decimal, represented
exactly). The ambient clock (`new Date()`) is embedded as an injected
`today : Int` day number, and `Math.random()` as an injected stream
`rand : Nat -> Rat` of draws; the source consumes draws left to right, so
the data synthesizer of the generic temperature branch reads draws
`0..29` and its visualization builder reads the next thirty draws.
Calendar-date formatting (`toISOString` / `toLocaleDateString`) is
abstracted to the underlying day number.
-/

namespace FloatChat

/-- The closed set of intents of the dispatch in `generateMockResponse`. -/
inductive Intent where
  | TemperatureAnomaly
  | TemperatureDepthProfile
  | TemperatureTrend
  | TemperatureGeneric
  | Salinity
  | CurrentVelocity
  | RegionAtlantic
  | RegionPacific
  | Default
  deriving DecidableEq, Repr

/-- `message.toLowerCase()`: the normalizer lower-cases the input and
nothing else.  We work on the character list of the string. -/
def normalize (s : String) : List Char := s.data.map Char.toLower

/-- Substring containment (JavaScript `String.prototype.includes`):
`needle` occurs contiguously in `haystack`. -/
def containsSub (needle haystack : List Char) : Bool :=
  (List.range (haystack.length + 1)).any fun i => needle.isPrefixOf (haystack.drop i)

/-- `lowerMessage.includes(w)` for a keyword literal `w`. -/
def containsWord (m : List Char) (w : String) : Bool := containsSub w.data m

/-- The intent-dispatch skeleton of `generateMockResponse`: the same
nested if/else chain on the lower-cased message, returning which branch
is taken (the spec's `resolve(normalize(s))`). -/
def resolve (message : String) : Intent :=
  let lowerMessage := normalize message
  if containsWord lowerMessage "temperature" then
    if containsWord lowerMessage "anomaly" || containsWord lowerMessage "unusual" then
      .TemperatureAnomaly
    else if containsWord lowerMessage "depth" || containsWord lowerMessage "profile" then
      .TemperatureDepthProfile
    else if containsWord lowerMessage "trend" then
      .TemperatureTrend
    else
      .TemperatureGeneric
  else if containsWord lowerMessage "salinity" then
    .Salinity
  else if containsWord lowerMessage "current" || containsWord lowerMessage "velocity" then
    .CurrentVelocity
  else if containsWord lowerMessage "atlantic" then
    .RegionAtlantic
  else if containsWord lowerMessage "pacific" then
    .RegionPacific
  else
    .Default

/-- One anomaly record `{date, value, anomaly, lat, lon}`. -/
structure AnomalyRecord where
  date : String
  value : ℚ
  anomaly : ℚ
  lat : ℚ
  lon : ℚ
  deriving DecidableEq, Repr

/-- The statistics block of the anomaly payload. -/
structure AnomalyStatistics where
  total_anomalies : ℕ
  max_positive : ℚ
  max_negative : ℚ
  confidence : ℚ
  deriving DecidableEq, Repr

/-- Payload of `generateTemperatureAnomalyData`. -/
structure TemperatureAnomalyData where
  region : String
  parameter : String
  anomalies : List AnomalyRecord
  statistics : AnomalyStatistics
  deriving DecidableEq, Repr

/-- The `location` record of the depth-profile payload. -/
structure ProfileLocation where
  lat : ℚ
  lon : ℚ
  region : String
  deriving DecidableEq, Repr

/-- Payload of `generateDepthProfileData`. -/
structure DepthProfileData where
  depths : List ℚ
  temperatures : List ℚ
  location : ProfileLocation
  deriving DecidableEq, Repr

/-- Payload of `generateTrendData`. -/
structure TrendData where
  years : List ℕ
  temperatures : List ℚ
  trend_slope : ℚ
  r_squared : ℚ
  deriving DecidableEq, Repr

/-- The statistics block of the generic temperature time-series payload. -/
structure TimeSeriesStatistics where
  mean : ℚ
  std : ℚ
  min : ℚ
  max : ℚ
  valid_measurements : ℚ
  active_floats : ℕ
  deriving DecidableEq, Repr

/-- Payload of `generateTemperatureTimeSeriesData`.  Dates are embedded
as day numbers relative to the injected clock. -/
structure TemperatureTimeSeriesData where
  dates : List ℤ
  temperatures : List ℚ
  statistics : TimeSeriesStatistics
  deriving DecidableEq, Repr

/-- The statistics block of the salinity payload. -/
structure SalinityStatistics where
  mean : ℚ
  std : ℚ
  halocline_depth : ℚ
  deriving DecidableEq, Repr

/-- Payload of `generateSalinityData`. -/
structure SalinityData where
  depths : List ℚ
  salinity : List ℚ
  statistics : SalinityStatistics
  deriving DecidableEq, Repr

/-- The statistics block of the current payload. -/
structure CurrentStatistics where
  mean_velocity : ℚ
  predominant_direction : ℕ
  deriving DecidableEq, Repr

/-- Payload of `generateCurrentData`. -/
structure CurrentData where
  velocities : List ℚ
  directions : List ℕ
  statistics : CurrentStatistics
  deriving DecidableEq, Repr

/-- Payload of `generateAtlanticData`. -/
structure AtlanticData where
  region : String
  temperature_range : List ℚ
  salinity_range : List ℚ
  characteristics : List String
  deriving DecidableEq, Repr

/-- The `depth_stats` record of the Pacific payload. -/
structure DepthStats where
  mean : ℕ
  max : ℕ
  deriving DecidableEq, Repr

/-- Payload of `generatePacificData`. -/
structure PacificData where
  region : String
  area : String
  characteristics : List String
  depth_stats : DepthStats
  deriving DecidableEq, Repr

/-- Payload of `generateDefaultData`. -/
structure DefaultData where
  measurement_count : ℕ
  float_count : ℕ
  date_range : String
  parameters : List String
  deriving DecidableEq, Repr

/-- The intent-specific `data` payload of a response. -/
inductive DomainData where
  | temperatureAnomaly (d : TemperatureAnomalyData)
  | depthProfile (d : DepthProfileData)
  | trend (d : TrendData)
  | temperatureTimeSeries (d : TemperatureTimeSeriesData)
  | salinityData (d : SalinityData)
  | currentData (d : CurrentData)
  | atlanticData (d : AtlanticData)
  | pacificData (d : PacificData)
  | defaultData (d : DefaultData)
  deriving DecidableEq, Repr

/-- A value on a plot axis: the source mixes category strings, numbers,
and formatted calendar dates (the latter embedded as day numbers). -/
inductive PValue where
  | str (s : String)
  | num (q : ℚ)
  | date (d : ℤ)
  deriving DecidableEq, Repr

/-- A `line: { color, width, dash? }` style record. -/
structure LineStyle where
  color : String
  width : ℚ
  dash : Option String
  deriving DecidableEq, Repr

/-- A `marker: { color?, size?, symbol? }` style record. -/
structure MarkerStyle where
  color : Option String
  size : Option ℚ
  symbol : Option String
  deriving DecidableEq, Repr

/-- One named series of a plot payload. -/
structure Series where
  x : List PValue
  y : List ℚ
  type : String
  mode : Option String
  name : String
  line : Option LineStyle
  marker : Option MarkerStyle
  deriving DecidableEq, Repr

/-- The `layout` record: title, axis titles, and whether the y axis is
reversed (`autorange: 'reversed'`). -/
structure PlotLayout where
  title : String
  xtitle : String
  ytitle : String
  yreversed : Bool
  deriving DecidableEq, Repr

/-- A `{data: series[], layout}` plot payload. -/
structure PlotPayload where
  data : List Series
  layout : PlotLayout
  deriving DecidableEq, Repr

/-- One map marker `{lat, lon, title, description, data}`; the `data`
object is a string-to-string mapping embedded as an association list. -/
structure MapMarker where
  lat : ℚ
  lon : ℚ
  title : String
  description : String
  data : List (String × String)
  deriving DecidableEq, Repr

/-- A `{markers: [...]}` map payload. -/
structure MapPayload where
  markers : List MapMarker
  deriving DecidableEq, Repr

/-- The payload of one visualization entry. -/
inductive VizData where
  | plot (p : PlotPayload)
  | map (m : MapPayload)
  deriving DecidableEq, Repr

/-- One `{ type: 'plot' | 'map', data: ... }` visualization entry. -/
structure VisualizationSpec where
  type : String
  data : VizData
  deriving DecidableEq, Repr

/-- The assembled response: message text, domain data payload,
visualizations, and follow-up suggestions. -/
structure ResponseDocument where
  message : String
  data : DomainData
  visualizations : List VisualizationSpec
  suggestions : List String
  deriving DecidableEq, Repr

/-- `generateTemperatureAnomalyData`: fixed three-record anomaly list
with its statistics block. -/
def generateTemperatureAnomalyData : TemperatureAnomalyData :=
  { region := "North Atlantic"
    parameter := "temperature"
    anomalies :=
      [ { date := "2024-01-15", value := 20.1, anomaly := 2.1, lat := 45.2, lon := -30.1 }
      , { date := "2024-01-22", value := 16.2, anomaly := -1.8, lat := 47.8, lon := -28.5 }
      , { date := "2024-02-03", value := 21.2, anomaly := 3.2, lat := 44.1, lon := -32.3 } ]
    statistics :=
      { total_anomalies := 3, max_positive := 3.2, max_negative := -1.8, confidence := 0.95 } }

/-- `generateTemperatureAnomalyVisualization`: one temperature series
plus one anomaly-marker series. -/
def generateTemperatureAnomalyVisualization : PlotPayload :=
  { data :=
      [ { x := ["Jan 1", "Jan 8", "Jan 15", "Jan 22", "Jan 29", "Feb 5", "Feb 12",
                "Feb 19", "Feb 26"].map .str
          y := [18.2, 18.5, 20.1, 16.2, 18.9, 21.2, 18.7, 19.1, 18.4]
          type := "scatter", mode := some "lines+markers", name := "Temperature"
          line := some { color := "#0891b2", width := 3, dash := none }
          marker := some { color := none, size := some 8, symbol := none } }
      , { x := ["Jan 15", "Jan 22", "Feb 5"].map .str
          y := [20.1, 16.2, 21.2]
          type := "scatter", mode := some "markers", name := "Anomalies"
          line := none
          marker := some { color := some "#dc2626", size := some 12, symbol := some "x" } } ]
    layout :=
      { title := "Temperature Anomaly Detection", xtitle := "Date",
        ytitle := "Temperature (°C)", yreversed := false } }

/-- `generateDepthProfileData`: fixed 13-point depth/temperature
profile with its location record. -/
def generateDepthProfileData : DepthProfileData :=
  { depths := [0, 10, 20, 50, 100, 150, 200, 300, 500, 750, 1000, 1500, 2000]
    temperatures := [22.1, 21.8, 21.2, 19.5, 16.8, 13.2, 10.5, 8.1, 6.2, 5.1, 4.8, 4.2, 4.0]
    location := { lat := 40.5, lon := -30.0, region := "North Atlantic" } }

/-- `generateDepthProfileVisualization`: temperature on x, depth on a
reversed y axis. -/
def generateDepthProfileVisualization : PlotPayload :=
  { data :=
      [ { x := ([22.1, 21.8, 21.2, 19.5, 16.8, 13.2, 10.5, 8.1, 6.2, 5.1, 4.8, 4.2, 4.0] :
            List ℚ).map .num
          y := [0, 10, 20, 50, 100, 150, 200, 300, 500, 750, 1000, 1500, 2000]
          type := "scatter", mode := some "lines+markers", name := "Temperature Profile"
          line := some { color := "#dc2626", width := 3, dash := none }
          marker := none } ]
    layout :=
      { title := "Ocean Temperature Depth Profile", xtitle := "Temperature (°C)",
        ytitle := "Depth (m)", yreversed := true } }

/-- `generateTrendData`: fixed 16-year annual series with slope and
goodness-of-fit constants. -/
def generateTrendData : TrendData :=
  { years := [2009, 2010, 2011, 2012, 2013, 2014, 2015, 2016, 2017, 2018, 2019, 2020,
              2021, 2022, 2023, 2024]
    temperatures := [17.8, 17.9, 18.1, 18.0, 18.3, 18.4, 18.6, 18.8, 18.7, 19.0, 19.2,
                     19.1, 19.3, 19.5, 19.4, 19.6]
    trend_slope := 0.015
    r_squared := 0.87 }

/-- `generateTrendVisualization`: annual series plus a dashed linear
trend line. -/
def generateTrendVisualization : PlotPayload :=
  { data :=
      [ { x := ([2009, 2010, 2011, 2012, 2013, 2014, 2015, 2016, 2017, 2018, 2019, 2020,
                 2021, 2022, 2023, 2024] : List ℚ).map .num
          y := [17.8, 17.9, 18.1, 18.0, 18.3, 18.4, 18.6, 18.8, 18.7, 19.0, 19.2, 19.1,
                19.3, 19.5, 19.4, 19.6]
          type := "scatter", mode := some "lines+markers", name := "Annual Mean Temperature"
          line := some { color := "#0891b2", width := 2, dash := none }
          marker := none }
      , { x := [PValue.num 2009, PValue.num 2024]
          y := [17.775, 19.625]
          type := "scatter", mode := some "lines", name := "Trend (+0.15°C/decade)"
          line := some { color := "#dc2626", width := 3, dash := some "dash" }
          marker := none } ]
    layout :=
      { title := "Long-term Temperature Trend Analysis", xtitle := "Year",
        ytitle := "Temperature (°C)", yreversed := false } }

/-- `generateTemperatureTimeSeriesData`: a rolling 30-day date window
ending today and 30 temperatures `18.7 + (rand() - 0.5) * 4.6`, reading
draws `rand 0 .. rand 29`, with a fixed statistics block. -/
def generateTemperatureTimeSeriesData (today : ℤ) (rand : ℕ → ℚ) :
    TemperatureTimeSeriesData :=
  { dates := (List.range 30).map fun i => today - (29 - (i : ℤ))
    temperatures := (List.range 30).map fun i => 18.7 + (rand i - 0.5) * 4.6
    statistics :=
      { mean := 18.7, std := 2.3, min := 15.2, max := 22.1,
        valid_measurements := 0.96, active_floats := 47 } }

/-- `generateTemperatureTimeSeriesVisualization`: the same 30-day date
window, but a FRESH batch of 30 random temperatures (it calls the random
source again rather than reusing the data payload). -/
def generateTemperatureTimeSeriesVisualization (today : ℤ) (rand : ℕ → ℚ) :
    PlotPayload :=
  { data :=
      [ { x := (List.range 30).map fun i => PValue.date (today - (29 - (i : ℤ)))
          y := (List.range 30).map fun i => 18.7 + (rand i - 0.5) * 4.6
          type := "scatter", mode := some "lines+markers", name := "Temperature"
          line := some { color := "#0891b2", width := 3, dash := none }
          marker := none } ]
    layout :=
      { title := "Ocean Temperature Time Series", xtitle := "Date",
        ytitle := "Temperature (°C)", yreversed := false } }

/-- `generateTemperatureMapData`: three float markers. -/
def generateTemperatureMapData : MapPayload :=
  { markers :=
      [ { lat := 42.3, lon := -71.1, title := "Float #2847",
          description := "Temperature: 19.2°C",
          data := [("temp", "19.2°C"), ("salinity", "35.1 PSU")] }
      , { lat := 40.7, lon := -74.0, title := "Float #2851",
          description := "Temperature: 18.5°C",
          data := [("temp", "18.5°C"), ("salinity", "35.3 PSU")] }
      , { lat := 39.1, lon := -76.8, title := "Float #2856",
          description := "Temperature: 17.8°C",
          data := [("temp", "17.8°C"), ("salinity", "35.0 PSU")] } ] }

/-- `generateSalinityData`: fixed 11-point salinity/depth profile. -/
def generateSalinityData : SalinityData :=
  { depths := [0, 25, 50, 100, 200, 400, 600, 800, 1000, 1500, 2000]
    salinity := [34.8, 35.1, 35.3, 35.6, 35.8, 35.9, 35.9, 35.8, 35.7, 35.5, 35.4]
    statistics := { mean := 35.2, std := 0.4, halocline_depth := 250 } }

/-- `generateSalinityVisualization`: salinity on x, depth on a reversed
y axis. -/
def generateSalinityVisualization : PlotPayload :=
  { data :=
      [ { x := ([34.8, 35.1, 35.3, 35.6, 35.8, 35.9, 35.9, 35.8, 35.7, 35.5, 35.4] :
            List ℚ).map .num
          y := [0, 25, 50, 100, 200, 400, 600, 800, 1000, 1500, 2000]
          type := "scatter", mode := some "lines+markers", name := "Salinity Profile"
          line := some { color := "#059669", width := 3, dash := none }
          marker := none } ]
    layout :=
      { title := "Ocean Salinity Depth Profile", xtitle := "Salinity (PSU)",
        ytitle := "Depth (m)", yreversed := true } }

/-- `generateCurrentData`: fixed 10-point velocity/direction arrays. -/
def generateCurrentData : CurrentData :=
  { velocities := [0.15, 0.23, 0.31, 0.28, 0.19, 0.34, 0.41, 0.38, 0.25, 0.29]
    directions := [225, 230, 235, 220, 240, 225, 215, 230, 235, 228]
    statistics := { mean_velocity := 0.28, predominant_direction := 228 } }

/-- `generateCurrentMapData`: two current-station markers. -/
def generateCurrentMapData : MapPayload :=
  { markers :=
      [ { lat := 35.5, lon := -75.0, title := "Current Station A",
          description := "Velocity: 0.31 m/s SW",
          data := [("velocity", "0.31 m/s"), ("direction", "225°")] }
      , { lat := 36.2, lon := -74.5, title := "Current Station B",
          description := "Velocity: 0.28 m/s SW",
          data := [("velocity", "0.28 m/s"), ("direction", "230°")] } ] }

/-- `generateCurrentTimeSeriesVisualization`: a weekly velocity bar
chart. -/
def generateCurrentTimeSeriesVisualization : PlotPayload :=
  { data :=
      [ { x := ["Week 1", "Week 2", "Week 3", "Week 4"].map .str
          y := [0.25, 0.32, 0.28, 0.31]
          type := "bar", mode := none, name := "Current Velocity"
          line := none
          marker := some { color := some "#7c3aed", size := none, symbol := none } } ]
    layout :=
      { title := "Ocean Current Velocity Over Time", xtitle := "Time Period",
        ytitle := "Velocity (m/s)", yreversed := false } }

/-- `generateAtlanticData`: descriptive North Atlantic record. -/
def generateAtlanticData : AtlanticData :=
  { region := "North Atlantic"
    temperature_range := [12.5, 24.8]
    salinity_range := [34.2, 36.5]
    characteristics := ["Gulf Stream influence", "Strong seasonal cycles",
                        "Deep water formation"] }

/-- `generateAtlanticMapData`: three Atlantic markers. -/
def generateAtlanticMapData : MapPayload :=
  { markers :=
      [ { lat := 40.0, lon := -70.0, title := "Gulf Stream",
          description := "Warm current system",
          data := [("temp", "22.5°C"), ("salinity", "36.2 PSU")] }
      , { lat := 45.0, lon := -45.0, title := "North Atlantic Current",
          description := "Extension of Gulf Stream",
          data := [("temp", "15.8°C"), ("salinity", "35.4 PSU")] }
      , { lat := 35.0, lon := -65.0, title := "Sargasso Sea",
          description := "Subtropical gyre center",
          data := [("temp", "24.1°C"), ("salinity", "36.8 PSU")] } ] }

/-- `generateAtlanticTimeSeriesVisualization`: monthly SST cycle. -/
def generateAtlanticTimeSeriesVisualization : PlotPayload :=
  { data :=
      [ { x := ["Jan", "Feb", "Mar", "Apr", "May", "Jun", "Jul", "Aug", "Sep", "Oct",
                "Nov", "Dec"].map .str
          y := [16.2, 15.8, 16.5, 18.2, 20.1, 22.5, 24.8, 24.2, 22.8, 20.5, 18.9, 17.1]
          type := "scatter", mode := some "lines+markers", name := "North Atlantic SST"
          line := some { color := "#0891b2", width := 3, dash := none }
          marker := none } ]
    layout :=
      { title := "North Atlantic Seasonal Temperature Cycle", xtitle := "Month",
        ytitle := "Temperature (°C)", yreversed := false } }

/-- `generatePacificData`: descriptive Pacific record. -/
def generatePacificData : PacificData :=
  { region := "Pacific Ocean"
    area := "165.2 million km²"
    characteristics := ["Largest ocean basin", "Ring of Fire",
                        "El Niño/La Niña oscillations"]
    depth_stats := { mean := 4280, max := 11034 } }

/-- `generatePacificMapData`: three Pacific markers. -/
def generatePacificMapData : MapPayload :=
  { markers :=
      [ { lat := 0, lon := -150, title := "Equatorial Pacific",
          description := "Upwelling zone",
          data := [("temp", "26.8°C"), ("salinity", "34.5 PSU")] }
      , { lat := 35, lon := -140, title := "Kuroshio Current",
          description := "Western boundary current",
          data := [("temp", "18.5°C"), ("salinity", "34.8 PSU")] }
      , { lat := -20, lon := -150, title := "South Pacific Gyre",
          description := "Subtropical circulation",
          data := [("temp", "25.2°C"), ("salinity", "35.2 PSU")] } ] }

/-- `generateDefaultData`: summary record for the default branch. -/
def generateDefaultData : DefaultData :=
  { measurement_count := 1247
    float_count := 23
    date_range := "2024-01-01 to 2024-02-01"
    parameters := ["temperature", "salinity", "pressure"] }

/-- `generateDefaultVisualization`: generic weekly line chart. -/
def generateDefaultVisualization : PlotPayload :=
  { data :=
      [ { x := ["Week 1", "Week 2", "Week 3", "Week 4"].map .str
          y := [18.2, 18.7, 17.9, 19.1]
          type := "scatter", mode := some "lines+markers", name := "Ocean Parameter"
          line := some { color := "#0891b2", width := 3, dash := none }
          marker := none } ]
    layout :=
      { title := "Ocean Data Analysis", xtitle := "Time Period",
        ytitle := "Measurement Value", yreversed := false } }

/-- `generateMockResponse`: the full fallback engine.  Lower-cases the
message, dispatches down the nested if/else chain, and assembles the
branch response.  `today` and `rand` inject the ambient clock and random
source; only the generic temperature branch reads them, the data
synthesizer consuming draws `0..29` and the visualization builder the
next thirty (it calls the random source afresh in the source). -/
def generateMockResponse (today : ℤ) (rand : ℕ → ℚ) (message : String) :
    ResponseDocument :=
  let lowerMessage := normalize message
  if containsWord lowerMessage "temperature" then
    if containsWord lowerMessage "anomaly" || containsWord lowerMessage "unusual" then
      { message := "I\x27ve analyzed temperature anomalies in the requested region. The data shows 3 significant temperature anomalies in the past month, with deviations of +2.1°C, -1.8°C, and +3.2°C from the seasonal average. These anomalies are highlighted in the visualization below."
        data := .temperatureAnomaly generateTemperatureAnomalyData
        visualizations := [{ type := "plot", data := .plot generateTemperatureAnomalyVisualization }]
        suggestions :=
          [ "Show depth profile for these anomalies"
          , "Compare with historical data"
          , "Analyze salinity during anomaly periods"
          , "Check ocean current patterns" ] }
    else if containsWord lowerMessage "depth" || containsWord lowerMessage "profile" then
      { message := "Here\x27s the temperature depth profile for the selected region. The thermocline is clearly visible at approximately 200-800m depth, with surface temperatures around 22°C decreasing to 4°C at 2000m depth."
        data := .depthProfile generateDepthProfileData
        visualizations := [{ type := "plot", data := .plot generateDepthProfileVisualization }]
        suggestions :=
          [ "Show salinity depth profile"
          , "Compare different seasons"
          , "Analyze thermocline variability"
          , "Display mixed layer depth" ] }
    else if containsWord lowerMessage "trend" then
      { message := "Temperature trend analysis shows a warming trend of +0.15°C per decade in this region. The analysis covers the last 15 years of ARGO data with high confidence intervals. Seasonal patterns show peak temperatures in August-September."
        data := .trend generateTrendData
        visualizations := [{ type := "plot", data := .plot generateTrendVisualization }]
        suggestions :=
          [ "Show confidence intervals"
          , "Compare with global trends"
          , "Analyze seasonal variations"
          , "Project future temperatures" ] }
    else
      { message := "I\x27ve retrieved temperature data for your specified region and time period. The analysis shows mean temperatures of 18.7°C with a standard deviation of 2.3°C. Data quality is excellent with 96% valid measurements from 47 active floats."
        data := .temperatureTimeSeries (generateTemperatureTimeSeriesData today rand)
        visualizations :=
          [ { type := "plot"
            , data := .plot (generateTemperatureTimeSeriesVisualization today
                fun i => rand (30 + i)) }
          , { type := "map", data := .map generateTemperatureMapData } ]
        suggestions :=
          [ "Show temperature depth profile"
          , "Analyze temperature anomalies"
          , "Compare with salinity data"
          , "Display seasonal patterns" ] }
  else if containsWord lowerMessage "salinity" then
    { message := "Salinity analysis completed for the requested area. Average salinity is 35.2 PSU with interesting variability near the surface due to precipitation and evaporation effects. The halocline is well-defined between 100-400m depth."
      data := .salinityData generateSalinityData
      visualizations := [{ type := "plot", data := .plot generateSalinityVisualization }]
      suggestions :=
        [ "Show salinity-temperature relationship"
        , "Analyze density profiles"
        , "Display freshwater influence"
        , "Compare with temperature data" ] }
  else if containsWord lowerMessage "current" || containsWord lowerMessage "velocity" then
    { message := "Ocean current analysis shows predominant southwestward flow with average velocities of 0.23 m/s. Strong seasonal variability is observed with peak velocities during winter months. The current structure shows typical characteristics of the regional circulation pattern."
      data := .currentData generateCurrentData
      visualizations :=
        [ { type := "map", data := .map generateCurrentMapData }
        , { type := "plot", data := .plot generateCurrentTimeSeriesVisualization } ]
      suggestions :=
        [ "Show velocity depth profile"
        , "Analyze current direction patterns"
        , "Compare with wind data"
        , "Display eddy activity" ] }
  else if containsWord lowerMessage "atlantic" then
    { message := "North Atlantic Ocean analysis reveals typical mid-latitude oceanic conditions. The region shows strong seasonal temperature cycles, well-developed thermocline structure, and characteristic salinity patterns influenced by the Gulf Stream system."
      data := .atlanticData generateAtlanticData
      visualizations :=
        [ { type := "map", data := .map generateAtlanticMapData }
        , { type := "plot", data := .plot generateAtlanticTimeSeriesVisualization } ]
      suggestions :=
        [ "Analyze Gulf Stream influence"
        , "Show North Atlantic Oscillation effects"
        , "Compare with Pacific data"
        , "Display seasonal variations" ] }
  else if containsWord lowerMessage "pacific" then
    { message := "Pacific Ocean data analysis reveals the vast scale and complexity of this ocean basin. Temperature patterns show strong equatorial upwelling, El Niño/La Niña influences, and distinct North-South gradients. The Pacific contains the world\x27s deepest ocean trenches reflected in our depth profile data."
      data := .pacificData generatePacificData
      visualizations := [{ type := "map", data := .map generatePacificMapData }]
      suggestions :=
        [ "Show El Niño effects"
        , "Analyze Pacific Decadal Oscillation"
        , "Display equatorial upwelling"
        , "Compare North vs South Pacific" ] }
  else
    { message := "I\x27ve processed your ocean data query and prepared a comprehensive analysis. The data includes measurements from multiple ARGO floats covering temperature, salinity, and depth information. The visualization shows spatial and temporal patterns in the requested parameters."
      data := .defaultData generateDefaultData
      visualizations := [{ type := "plot", data := .plot generateDefaultVisualization }]
      suggestions :=
        [ "Show me temperature trends"
        , "Analyze salinity patterns"
        , "Display depth profiles"
        , "Find temperature anomalies" ] }

/-- The `{ messages: [...] }` shape returned by the history endpoint
and by its fallback. -/
structure ChatHistory where
  messages : List String
  deriving DecidableEq, Repr

/-- `getChatHistory`: issues `GET /api/chat/history` with
`user_id = userId || 'demo'`; the outcome of that request is injected as
an `Except` value.  On success it returns the response data; on any
failure it returns `{ messages: [] }`. -/
def getChatHistory (userId : Option String) (result : Except String ChatHistory) :
    ChatHistory :=
  let _user := userId.getD "demo"
  match result with
  | .ok data => data
  | .error _ => { messages := [] }

/-- The explicit random stream used to exhibit that the generic
temperature branch builds its visualization from fresh draws: the first
thirty draws are `0`, all later ones are `1/2` (all within `[0, 1)`). -/
def splitDrawStream : ℕ → ℚ := fun i => if i < 30 then 0 else 1/2

/-- C1: every message whose lower-cased form contains both
`"temperature"` and `"salinity"` resolves to one of the four temperature
sub-intents and never to `Salinity`, and the assembled response carries
one of the four temperature data payloads, because the temperature rule
is evaluated before the salinity rule. -/
theorem resolve_temperature_priority_over_salinity (s : String) (today : ℤ)
    (rand : ℕ → ℚ)
    (htemp : containsWord (normalize s) "temperature" = true)
    (hsal : containsWord (normalize s) "salinity" = true) :
    (resolve s = .TemperatureAnomaly ∨ resolve s = .TemperatureDepthProfile ∨
      resolve s = .TemperatureTrend ∨ resolve s = .TemperatureGeneric) ∧
    resolve s ≠ .Salinity ∧
    ((generateMockResponse today rand s).data =
        .temperatureAnomaly generateTemperatureAnomalyData ∨
      (generateMockResponse today rand s).data = .depthProfile generateDepthProfileData ∨
      (generateMockResponse today rand s).data = .trend generateTrendData ∨
      (generateMockResponse today rand s).data =
        .temperatureTimeSeries (generateTemperatureTimeSeriesData today rand)) := by
  unfold resolve generateMockResponse
  simp only [htemp, if_true]
  split
  next h => exact ⟨Or.inl rfl, by decide, by simp [h]⟩
  next h =>
    split
    next h2 => exact ⟨Or.inr (Or.inl rfl), by decide, by simp [h, h2]⟩
    next h2 =>
      split
      next h3 => exact ⟨Or.inr (Or.inr (Or.inl rfl)), by decide, by simp [h, h2, h3]⟩
      next h3 => exact ⟨Or.inr (Or.inr (Or.inr rfl)), by decide, by simp [h, h2, h3]⟩

/-- Witness for C1 at the concrete message "temperature and salinity". -/
theorem resolve_temperature_priority_over_salinity_witness :
    (containsWord (normalize "temperature and salinity") "temperature" = true ∧
      containsWord (normalize "temperature and salinity") "salinity" = true) ∧
    (resolve "temperature and salinity" = .TemperatureAnomaly ∨
      resolve "temperature and salinity" = .TemperatureDepthProfile ∨
      resolve "temperature and salinity" = .TemperatureTrend ∨
      resolve "temperature and salinity" = .TemperatureGeneric) ∧
    resolve "temperature and salinity" ≠ .Salinity :=
  ⟨⟨by decide, by decide⟩,
    (resolve_temperature_priority_over_salinity "temperature and salinity" 0
        (fun _ => 0) (by decide) (by decide)).1,
    (resolve_temperature_priority_over_salinity "temperature and salinity" 0
        (fun _ => 0) (by decide) (by decide)).2.1⟩

/-- C2: the response to "Show temperature anomaly" is identical on every
call (for any clock and random stream), and its data payload has exactly
3 anomaly entries with anomaly values 2.1, -1.8, 3.2 in that order and
confidence 0.95. -/
theorem anomaly_response_deterministic (today today' : ℤ) (rand rand' : ℕ → ℚ) :
    generateMockResponse today rand "Show temperature anomaly" =
      generateMockResponse today' rand' "Show temperature anomaly" ∧
    (generateMockResponse today rand "Show temperature anomaly").data =
      .temperatureAnomaly generateTemperatureAnomalyData ∧
    generateTemperatureAnomalyData.anomalies.length = 3 ∧
    generateTemperatureAnomalyData.anomalies.map (·.anomaly) = [2.1, -1.8, 3.2] ∧
    generateTemperatureAnomalyData.statistics.confidence = 0.95 :=
  ⟨rfl, rfl, rfl, rfl, rfl⟩

/-- C3: for every input string, clock, and random stream, the fallback
engine returns a response with a non-empty message, exactly 4
suggestions, and at least 1 visualization. -/
theorem mock_response_total_well_formed (s : String) (today : ℤ) (rand : ℕ → ℚ) :
    (generateMockResponse today rand s).message ≠ "" ∧
    (generateMockResponse today rand s).suggestions.length = 4 ∧
    1 ≤ (generateMockResponse today rand s).visualizations.length := by
  simp only [generateMockResponse]
  repeat' split
  all_goals refine ⟨?_, rfl, ?_⟩ <;> simp

/-- C5: the response to "temperature depth profile" is deterministic and
carries parallel 13-element depth/temperature arrays with first depth 0,
last depth 2000, first temperature 22.1, last temperature 4.0, and a
strictly decreasing (hence non-increasing) temperature sequence. -/
theorem depth_profile_response_shape (today today' : ℤ) (rand rand' : ℕ → ℚ) :
    generateMockResponse today rand "temperature depth profile" =
      generateMockResponse today' rand' "temperature depth profile" ∧
    (generateMockResponse today rand "temperature depth profile").data =
      .depthProfile generateDepthProfileData ∧
    generateDepthProfileData.depths.length = 13 ∧
    generateDepthProfileData.temperatures.length = 13 ∧
    generateDepthProfileData.depths.head? = some 0 ∧
    generateDepthProfileData.depths.getLast? = some 2000 ∧
    generateDepthProfileData.temperatures.head? = some 22.1 ∧
    generateDepthProfileData.temperatures.getLast? = some 4.0 ∧
    List.Chain' (· > ·) generateDepthProfileData.temperatures := by
  refine ⟨rfl, rfl, rfl, rfl, rfl, rfl, rfl, rfl, ?_⟩
  norm_num [generateDepthProfileData, List.chain'_cons]

/-- C9: when the history request fails (for any userId and any error),
`getChatHistory` returns exactly the empty message list rather than
propagating the error. -/
theorem chat_history_error_fallback (userId : Option String) (e : String) :
    getChatHistory userId (.error e) = { messages := [] } :=
  rfl

/-- C10: in the anomaly payload, `total_anomalies` equals the length of
the anomaly list (3), `max_positive` (3.2) is the maximum of the anomaly
fields, and `max_negative` (-1.8) is their minimum. -/
theorem anomaly_statistics_consistent :
    generateTemperatureAnomalyData.statistics.total_anomalies =
      generateTemperatureAnomalyData.anomalies.length ∧
    generateTemperatureAnomalyData.anomalies.length = 3 ∧
    (∀ a ∈ generateTemperatureAnomalyData.anomalies,
      a.anomaly ≤ generateTemperatureAnomalyData.statistics.max_positive ∧
      generateTemperatureAnomalyData.statistics.max_negative ≤ a.anomaly) ∧
    generateTemperatureAnomalyData.statistics.max_positive ∈
      generateTemperatureAnomalyData.anomalies.map (·.anomaly) ∧
    generateTemperatureAnomalyData.statistics.max_negative ∈
      generateTemperatureAnomalyData.anomalies.map (·.anomaly) ∧
    generateTemperatureAnomalyData.statistics.max_positive = 3.2 ∧
    generateTemperatureAnomalyData.statistics.max_negative = -1.8 := by
  refine ⟨rfl, rfl, ?_, ?_, ?_, rfl, rfl⟩
  · intro a ha
    simp [generateTemperatureAnomalyData] at ha ⊢
    rcases ha with h | h | h <;> simp [h] <;> norm_num
  · norm_num [generateTemperatureAnomalyData]
  · norm_num [generateTemperatureAnomalyData]

/-- C4: for the input "temperature", for every stream of draws in
`[0, 1)`, the temperatures array has 30 values, each within
`[16.4, 21.0]` (jitter `(rand() - 0.5) * 4.6` around 18.7), and the
statistics block is the fixed record regardless of the draws. -/
theorem generic_temperature_bounded_jitter (today : ℤ) (rand : ℕ → ℚ)
    (hr : ∀ i, 0 ≤ rand i ∧ rand i < 1) :
    (generateMockResponse today rand "temperature").data =
      .temperatureTimeSeries (generateTemperatureTimeSeriesData today rand) ∧
    (generateTemperatureTimeSeriesData today rand).temperatures.length = 30 ∧
    (∀ t ∈ (generateTemperatureTimeSeriesData today rand).temperatures,
      16.4 ≤ t ∧ t ≤ 21.0) ∧
    (generateTemperatureTimeSeriesData today rand).statistics =
      { mean := 18.7, std := 2.3, min := 15.2, max := 22.1,
        valid_measurements := 0.96, active_floats := 47 } := by
  refine ⟨rfl, by simp [generateTemperatureTimeSeriesData], ?_, rfl⟩
  intro t ht
  simp [generateTemperatureTimeSeriesData] at ht
  obtain ⟨i, hi, rfl⟩ := ht
  have h1 := (hr i).1
  have h2 := (hr i).2
  constructor <;> nlinarith [h1, h2]

/-- Witness for C4 at the all-zero draw stream. -/
theorem generic_temperature_bounded_jitter_witness :
    (∀ i : ℕ, 0 ≤ (fun _ : ℕ => (0 : ℚ)) i ∧ (fun _ : ℕ => (0 : ℚ)) i < 1) ∧
    (∀ t ∈ (generateTemperatureTimeSeriesData 0 fun _ => 0).temperatures,
      16.4 ≤ t ∧ t ≤ 21.0) :=
  ⟨fun _ => ⟨le_refl 0, zero_lt_one⟩,
    (generic_temperature_bounded_jitter 0 (fun _ => 0)
        fun _ => ⟨le_refl 0, zero_lt_one⟩).2.2.1⟩

/-- C6 counterexample: the 16-year trend series is NOT monotonically
non-decreasing: its entry for 2011 is 18.1 but the next entry (2012) is
18.0. -/
theorem trend_series_not_monotone_counterexample :
    generateTrendData.temperatures[2]? = some (18.1 : ℚ) ∧
    generateTrendData.temperatures[3]? = some (18.0 : ℚ) ∧
    ¬ (18.1 : ℚ) ≤ 18.0 ∧
    ¬ List.Chain' (· ≤ ·) generateTrendData.temperatures := by
  refine ⟨rfl, rfl, by norm_num, ?_⟩
  norm_num [generateTrendData, List.chain'_cons]

/-- C6 amended: the trend payload is a fixed deterministic 16-year
series for 2009-2024 with `trend_slope = 0.015` and `r_squared = 0.87`;
the series rises overall (from 17.8 to 19.6, all values within that
range) but is not pointwise monotonically non-decreasing. -/
theorem trend_response_shape (today today' : ℤ) (rand rand' : ℕ → ℚ) :
    generateMockResponse today rand "temperature trend" =
      generateMockResponse today' rand' "temperature trend" ∧
    (generateMockResponse today rand "temperature trend").data =
      .trend generateTrendData ∧
    generateTrendData.years = [2009, 2010, 2011, 2012, 2013, 2014, 2015, 2016,
      2017, 2018, 2019, 2020, 2021, 2022, 2023, 2024] ∧
    generateTrendData.years.length = 16 ∧
    generateTrendData.temperatures.length = 16 ∧
    generateTrendData.temperatures.head? = some 17.8 ∧
    generateTrendData.temperatures.getLast? = some 19.6 ∧
    (17.8 : ℚ) < 19.6 ∧
    (∀ t ∈ generateTrendData.temperatures, 17.8 ≤ t ∧ t ≤ 19.6) ∧
    generateTrendData.trend_slope = 0.015 ∧
    generateTrendData.r_squared = 0.87 := by
  refine ⟨rfl, rfl, rfl, rfl, rfl, rfl, rfl, by norm_num, ?_, rfl, rfl⟩
  intro t ht
  fin_cases ht <;> norm_num

/-- C7 counterexample: on the explicit stream whose first thirty draws
are 0 and whose later draws are 1/2 (all in `[0, 1)`), the generic
temperature response's plot series does NOT equal the temperatures array
of the data payload of the same response: the visualization is built
from the next thirty draws. -/
theorem generic_viz_fresh_draws_counterexample :
    (generateMockResponse 0 splitDrawStream "temperature").data =
      .temperatureTimeSeries (generateTemperatureTimeSeriesData 0 splitDrawStream) ∧
    (generateMockResponse 0 splitDrawStream "temperature").visualizations.head? =
      some { type := "plot",
             data := .plot (generateTemperatureTimeSeriesVisualization 0
               fun i => splitDrawStream (30 + i)) } ∧
    (∀ i, 0 ≤ splitDrawStream i ∧ splitDrawStream i < 1) ∧
    (generateTemperatureTimeSeriesVisualization 0
        (fun i => splitDrawStream (30 + i))).data.map Series.y ≠
      [(generateTemperatureTimeSeriesData 0 splitDrawStream).temperatures] := by
  refine ⟨rfl, rfl, ?_, ?_⟩
  · intro i
    unfold splitDrawStream
    split <;> norm_num
  · intro h
    simp only [generateTemperatureTimeSeriesVisualization,
      generateTemperatureTimeSeriesData, List.map_cons, List.map_nil,
      List.cons.injEq, and_true] at h
    rw [List.map_inj_left] at h
    have h0 := h 0 (by simp)
    simp [splitDrawStream] at h0
    norm_num at h0

/-- C7 amended: the deterministic branches wrap the very values of
their data payloads into their plots (depth profile, salinity, trend,
and the anomaly marker series), while the generic temperature branch
assembles its plot from a fresh batch of thirty draws (the stream's next
thirty), so that plot need not equal the data payload's temperatures. -/
theorem viz_wraps_data_amended (today : ℤ) (rand rand2 : ℕ → ℚ) :
    generateDepthProfileVisualization.data.map Series.x =
      [generateDepthProfileData.temperatures.map PValue.num] ∧
    generateDepthProfileVisualization.data.map Series.y =
      [generateDepthProfileData.depths] ∧
    generateSalinityVisualization.data.map Series.x =
      [generateSalinityData.salinity.map PValue.num] ∧
    generateSalinityVisualization.data.map Series.y =
      [generateSalinityData.depths] ∧
    (generateTrendVisualization.data.map Series.y).head? =
      some generateTrendData.temperatures ∧
    generateTemperatureAnomalyVisualization.data.map Series.y =
      [[18.2, 18.5, 20.1, 16.2, 18.9, 21.2, 18.7, 19.1, 18.4],
        generateTemperatureAnomalyData.anomalies.map (·.value)] ∧
    (generateMockResponse today rand "temperature").visualizations =
      [{ type := "plot",
         data := .plot (generateTemperatureTimeSeriesVisualization today
           fun i => rand (30 + i)) },
       { type := "map", data := .map generateTemperatureMapData }] ∧
    (generateTemperatureTimeSeriesVisualization today rand2).data.map Series.y =
      [(List.range 30).map fun i => 18.7 + (rand2 i - 0.5) * 4.6] :=
  ⟨rfl, rfl, rfl, rfl, rfl, rfl, rfl, rfl⟩

/-- C8: the engine's output depends only on the lower-cased form of the
message (two messages normalizing alike get the very same response and
the same intent), so resolution is case-insensitive; in particular
"TEMPERATURE trend" and "temperature TREND" both resolve to
`TemperatureTrend`. -/
theorem resolver_case_insensitive :
    (∀ (today : ℤ) (rand : ℕ → ℚ) (s t : String), normalize s = normalize t →
      generateMockResponse today rand s = generateMockResponse today rand t) ∧
    (∀ s t : String, normalize s = normalize t → resolve s = resolve t) ∧
    resolve "TEMPERATURE trend" = resolve "temperature TREND" ∧
    resolve "TEMPERATURE trend" = .TemperatureTrend := by
  refine ⟨?_, ?_, by decide, by decide⟩
  · intro today rand s t h
    simp only [generateMockResponse, h]
  · intro s t h
    simp only [resolve, h]

/-- Witness for C8 at the two concrete mixed-case messages. -/
theorem resolver_case_insensitive_witness :
    normalize "TEMPERATURE trend" = normalize "temperature TREND" ∧
    generateMockResponse 0 (fun _ => 0) "TEMPERATURE trend" =
      generateMockResponse 0 (fun _ => 0) "temperature TREND" ∧
    resolve "TEMPERATURE trend" = resolve "temperature TREND" :=
  ⟨by decide,
    resolver_case_insensitive.1 0 (fun _ => 0) "TEMPERATURE trend"
      "temperature TREND" (by decide),
    resolver_case_insensitive.2.1 "TEMPERATURE trend" "temperature TREND"
      (by decide)⟩

end FloatChat
